import Mathlib

/-!
Verification of the mr-myter YouTube batch uploader.

Shallow embedding of the Python sources `src/main.py` and
`src/utility/uploader.py`: pure string manipulation is modelled on
`List Char` / `String`, the filesystem is a predicate `String → Bool`
(`os.path.exists`), browser-element lookup is modelled by an optional
appearance time, Python exceptions become an `Except` monad, and the
per-video upload workflow is a sequential chain whose boundary
`try/except` converts exceptions into recorded outcomes.
-/

namespace YTU

/-! ## Python string primitives -/

/-- Characters stripped by Python's `str.strip()` (ASCII whitespace). -/
def isPySpace (c : Char) : Bool :=
  c = ' ' || c = '\t' || c = '\n' || c = '\r' || c = '\x0b' || c = '\x0c'

/-- Python `str.strip()`: drop leading and trailing whitespace. -/
def pyStrip (s : String) : String :=
  String.mk (((s.data.dropWhile isPySpace).reverse.dropWhile isPySpace).reverse)

/-- Helper for `str.split(",")`: split a character list at commas,
accumulating the current (reversed) field. -/
def splitCommaAux : List Char → List Char → List (List Char)
  | [], acc => [acc.reverse]
  | c :: rest, acc =>
    if c = ',' then acc.reverse :: splitCommaAux rest []
    else splitCommaAux rest (c :: acc)

/-- Python `line.split(",")` (always yields at least one field). -/
def pySplitComma (s : String) : List String :=
  (splitCommaAux s.data []).map String.mk

/-- The keyword list built in `set_video_description`
(`[keyword.strip() for keyword in f.readline().split(",")]`). -/
def pySplitStrip (line : String) : List String :=
  (pySplitComma line).map pyStrip

/-- Fuel-driven core of Python `str.replace`: replace each left-most,
non-overlapping occurrence of `pat` by `rep`.  The fuel only needs to
exceed the length of the subject string (each step consumes at least
one character when `pat` is non-empty). -/
def replaceAux (pat rep : List Char) : Nat → List Char → List Char
  | 0, s => s
  | fuel + 1, s =>
    if pat.isPrefixOf s then
      rep ++ replaceAux pat rep fuel (s.drop pat.length)
    else
      match s with
      | [] => []
      | c :: rest => c :: replaceAux pat rep fuel rest

/-- Python `str.replace(pat, rep)` on character lists, including the
empty-pattern behaviour (`"ab".replace("", "-") = "-a-b-"`). -/
def pyReplace (s pat rep : List Char) : List Char :=
  if pat.isEmpty then rep ++ (s.map (fun c => c :: rep)).flatten
  else replaceAux pat rep (s.length + 1) s

/-- Python `str.replace` lifted to `String`. -/
def pyReplaceStr (s pat rep : String) : String :=
  String.mk (pyReplace s.data pat.data rep.data)

/-- Python `str.endswith(suffix)`: literal, case-sensitive suffix test. -/
def pyEndsWith (s suffix : String) : Bool :=
  List.isSuffixOf suffix.data s.data

/-! ## Description substitution (`set_video_description`, uploader.py 251-260)

    for keyword in seo_keywords:
        description = description.replace("KEYWORD", keyword)
    description = description.replace("TITLE", video_title)
-/

/-- The placeholder substitution performed on the template description:
one `replace`-all pass per keyword, in list order, then a `replace`-all
of `TITLE` by the video title. -/
def substituteDescription (keywords : List String) (template title : String) : String :=
  pyReplaceStr (keywords.foldl (fun d k => pyReplaceStr d "KEYWORD" k) template) "TITLE" title

/-! ## Tag combination and truncation (`set_video_tags`, uploader.py 316-332) -/

/-- The combined tag string: when the default chip was found and its
delete icon was found, the chip text is prepended
(`tags = f"{default_tag}, {tags}"`); otherwise the second-line tag
string is used as read. -/
def combined_tags (chip : Option String) (icon : Bool) (line : String) : String :=
  match chip with
  | some t => if icon then t ++ ", " ++ line else line
  | none => line

/-- `if len(tags) > 460: tags = tags[:460]`. -/
def truncate_tags (tags : String) : String :=
  if tags.length > 460 then String.mk (tags.data.take 460) else tags

/-! ## Sidecar resolution (uploader.py 62-120)

`video_dir` and `video_name` stand for `os.path.dirname(video_path)` and
`os.path.splitext(os.path.basename(video_path))[0]` as computed by the
source; `fs` models `os.path.exists`. -/

/-- `os.path.join(video_dir, video_name + ext)` for the relative names
the uploader builds. -/
def joinPath (dir name : String) : String := dir ++ "/" ++ name

/-- Extension preference list of `find_thumbnail`. -/
def thumbnailExts : List String := [".jpg", ".jpeg", ".png", ".gif"]

/-- Extension preference list shared by `find_keywords` and `find_tags`. -/
def textExts : List String := [".txt", ".md", ".json"]

/-- The common loop of the three sidecar resolvers: first existing
candidate path in extension-list order, else `none`. -/
def findSidecar (fs : String → Bool) (video_dir video_name : String) :
    List String → Option String
  | [] => none
  | ext :: rest =>
    let p := joinPath video_dir (video_name ++ ext)
    if fs p then some p else findSidecar fs video_dir video_name rest

/-- `YouTubeUploader.find_thumbnail`. -/
def find_thumbnail (fs : String → Bool) (video_dir video_name : String) : Option String :=
  findSidecar fs video_dir video_name thumbnailExts

/-- `YouTubeUploader.find_keywords`. -/
def find_keywords (fs : String → Bool) (video_dir video_name : String) : Option String :=
  findSidecar fs video_dir video_name textExts

/-- `YouTubeUploader.find_tags`. -/
def find_tags (fs : String → Bool) (video_dir video_name : String) : Option String :=
  findSidecar fs video_dir video_name textExts

/-! ## Video-file discovery (main.py 53-57) -/

/-- `f.endswith((".mp4", ".avi", ".mov"))`. -/
def isVideoFile (f : String) : Bool :=
  pyEndsWith f ".mp4" || pyEndsWith f ".avi" || pyEndsWith f ".mov"

/-- The queue built by `main`: the directory listing filtered, in
order, to names passing the suffix test. -/
def video_files (listing : List String) : List String :=
  listing.filter (fun f => isVideoFile f)

/-! ## Exceptions, outcomes, workflow steps -/

/-- The Python exceptions the workflow can see. -/
inductive PyExc where
  /-- selenium `TimeoutException` (from a `WebDriverWait.until`). -/
  | timeoutException : PyExc
  /-- `TypeError`, e.g. `open(None, "r")`. -/
  | typeError : PyExc
  /-- `UnboundLocalError` / `NameError` for a read of an unbound local. -/
  | nameError : PyExc
  /-- a `raise Exception(msg)` or other generic exception. -/
  | genericExc (msg : String) : PyExc
deriving DecidableEq

/-- The recorded per-video outcome: `upload_video` either finishes its
try-block (success prints), or lands in `except TimeoutException`
(the "Timeout error:" log) or in `except Exception` (the
"Error uploading video" log). -/
inductive Outcome where
  | success : Outcome
  | timeoutLogged : Outcome
  | failedLogged : Outcome
deriving DecidableEq

/-- Which `except` clause of `upload_video` records an exception. -/
def excOutcome : PyExc → Outcome
  | .timeoutException => .timeoutLogged
  | _ => .failedLogged

/-- The named operations of the upload workflow, in source order. -/
inductive WStep where
  | navigate | selectFile | waitFields | setTitle | setDescription
  | focusDialog | uploadThumbnail | setTags | finalize
deriving DecidableEq

/-! ## Element access layer (uploader.py 27-45)

An element of result type alpha is modelled by `Option (Nat × alpha)`:
`some (t, e)` means the element `e` appears after `t` seconds of
polling; `none` means it never appears. -/

/-- `WebDriverWait(driver, timeout).until(presence_of_element_located)`:
the element if it appears within `timeout`, otherwise a raised
`TimeoutException`. -/
def webDriverWaitUntil {α : Type} (appearsAt : Option (Nat × α)) (timeout : Nat) :
    Except PyExc α :=
  match appearsAt with
  | some (t, e) => if t ≤ timeout then .ok e else .error .timeoutException
  | none => .error .timeoutException

/-- `YouTubeUploader.safe_find_element`: the bounded wait with the
`TimeoutException` caught and turned into `None`; default timeout 10. -/
def safe_find_element {α : Type} (appearsAt : Option (Nat × α)) (timeout : Nat := 10) :
    Option α :=
  match webDriverWaitUntil appearsAt timeout with
  | .ok e => some e
  | .error _ => none

/-! ## Browser-page environment for one video -/

/-- The state of the console page while one video is processed: for
each element the uploader looks up, whether/when it appears (and, for
text-bearing elements, its text). -/
structure Env where
  /-- the `#create-icon` button becomes clickable within its 20s wait. -/
  createClickable : Bool
  /-- the "Upload videos" menu entry becomes clickable within its 20s wait. -/
  uploadOptionClickable : Bool
  /-- the `input[type="file"]` element is present within its 20s wait. -/
  fileInputPresent : Bool
  /-- appearance of `#next-button` (looked up with timeout 300). -/
  nextButton : Option (Nat × Unit)
  /-- appearance of the title textbox. -/
  titleInput : Option (Nat × Unit)
  /-- appearance of the description textbox, with its current `innerText`
  (the template description). -/
  descriptionInput : Option (Nat × String)
  /-- appearance of the `ytcp-uploads-dialog` container. -/
  uploadsDialog : Option (Nat × Unit)
  /-- appearance of the "Show more" toggle button. -/
  showMoreButton : Option (Nat × Unit)
  /-- whether reading the toggle's text content raises (plain
  `find_element` with no wait raises when the inner node is missing). -/
  showMoreTextRaises : Bool
  /-- appearance of the thumbnail file input. -/
  thumbnailInput : Option (Nat × Unit)
  /-- appearance of the default tag chip's text node, with its text. -/
  chipText : Option (Nat × String)
  /-- appearance of the chip's delete icon. -/
  deleteIcon : Option (Nat × Unit)
  /-- appearance of the tags input. -/
  tagsInput : Option (Nat × Unit)

/-- Everything one call of `upload_video` depends on: the page
environment, the filesystem, the path split of the video file, and the
line contents of sidecar text files. -/
structure VideoJob where
  env : Env
  /-- `os.path.exists`. -/
  fs : String → Bool
  /-- `os.path.dirname(video_path)`. -/
  video_dir : String
  /-- `os.path.splitext(os.path.basename(video_path))[0]` — also the
  derived title. -/
  video_name : String
  /-- first line of a text file, as a function of its path. -/
  fileFirstLine : String → String
  /-- second line of a text file, as a function of its path. -/
  fileSecondLine : String → String

/-! ## Workflow step operations (uploader.py 122-376) -/

/-- `navigate_to_upload_page`: two 20s clickability waits, each raising
`TimeoutException` on failure (`safe_click` itself never raises here). -/
def navigate_to_upload_page (env : Env) : Except PyExc Unit :=
  if env.createClickable then
    if env.uploadOptionClickable then .ok () else .error .timeoutException
  else .error .timeoutException

/-- `select_video_file`: 20s presence wait for the file input, raising
`TimeoutException` on failure. -/
def select_video_file (env : Env) : Except PyExc Unit :=
  if env.fileInputPresent then .ok () else .error .timeoutException

/-- `wait_for_input_fields`: `safe_find_element` on `#next-button` with
timeout 300; on `None` it raises the generic
`Exception("Input fields not found")` (not a `TimeoutException`). -/
def wait_for_input_fields (env : Env) : Except PyExc Unit :=
  match safe_find_element env.nextButton 300 with
  | some _ => .ok ()
  | none => .error (.genericExc "Input fields not found")

/-- `set_video_title`: both the found and the not-found branch only
print and return. -/
def set_video_title (env : Env) : Except PyExc Unit :=
  match safe_find_element env.titleInput with
  | some _ => .ok ()
  | none => .ok ()

/-- `set_video_description`: opens the keywords file unconditionally
(`open(None)` raises `TypeError` when the sidecar is absent), splits
and strips the first line, reads the template from the description
element, substitutes, and writes the result back when non-empty.  When
the description element is not found, the local `description` is never
bound and the substitution loop raises an unbound-local error.
Returns the text written back, if any. -/
def set_video_description (env : Env) (keywords_path : Option String)
    (fileFirstLine : String → String) (video_title : String) :
    Except PyExc (Option String) :=
  match keywords_path with
  | none => .error .typeError
  | some p =>
    let seo_keywords := pySplitStrip (fileFirstLine p)
    match safe_find_element env.descriptionInput with
    | some template =>
      let description := substituteDescription seo_keywords template video_title
      if description = "" then .ok none else .ok (some description)
    | none => .error .nameError

/-- `focus_upload_dialog`: scroll if the dialog is found, print
otherwise; never raises. -/
def focus_upload_dialog (env : Env) : Except PyExc Unit :=
  match safe_find_element env.uploadsDialog with
  | some _ => .ok ()
  | none => .ok ()

/-- `upload_thumbnail`: all branches (no sidecar, input missing,
success) only print and return. -/
def upload_thumbnail (env : Env) (thumbnail_path : Option String) : Except PyExc Unit :=
  match thumbnail_path with
  | some _ =>
    match safe_find_element env.thumbnailInput with
    | some _ => .ok ()
    | none => .ok ()
  | none => .ok ()

/-- `expand_more_options`: raises only when the toggle was found but
reading its inner text node raises. -/
def expand_more_options (env : Env) : Except PyExc Unit :=
  match safe_find_element env.showMoreButton with
  | some _ =>
    if env.showMoreTextRaises then .error (.genericExc "no such element")
    else .ok ()
  | none => .ok ()

/-- `set_video_tags`: the whole body sits in its own
`try/except Exception`, so every internal exception (expand failure,
`open(None)` on an absent sidecar) is logged and swallowed.  Returns
the value written into the tags input, if any. -/
def set_video_tags (env : Env) (tags_path : Option String)
    (fileSecondLine : String → String) : Except PyExc (Option String) :=
  match expand_more_options env with
  | .error _ => .ok none
  | .ok _ =>
    match tags_path with
    | none => .ok none
    | some p =>
      let tags :=
        truncate_tags
          (combined_tags (safe_find_element env.chipText)
            (safe_find_element env.deleteIcon).isSome (fileSecondLine p))
      match safe_find_element env.tagsInput with
      | none => .ok none
      | some _ => .ok (some tags)

/-! ## The per-video workflow and its exception boundary
(uploader.py 378-430) -/

/-- Run one statement of the try-block: on success continue with the
step appended to the trace, on an exception abort carrying the
exception and the trace up to and including the raising step. -/
def tryStep {α : Type} (acc : List WStep) (s : WStep) (r : Except PyExc α)
    (k : List WStep → Except (PyExc × List WStep) (List WStep)) :
    Except (PyExc × List WStep) (List WStep) :=
  match r with
  | .ok _ => k (acc ++ [s])
  | .error e => .error (e, acc ++ [s])

/-- The try-block of `upload_video`: sidecar resolution followed by the
step sequence, propagating the first exception. -/
def upload_video_try (job : VideoJob) : Except (PyExc × List WStep) (List WStep) :=
  let thumbnail_path := find_thumbnail job.fs job.video_dir job.video_name
  let keywords_path := find_keywords job.fs job.video_dir job.video_name
  let tags_path := find_tags job.fs job.video_dir job.video_name
  tryStep [] .navigate (navigate_to_upload_page job.env) fun t1 =>
  tryStep t1 .selectFile (select_video_file job.env) fun t2 =>
  tryStep t2 .waitFields (wait_for_input_fields job.env) fun t3 =>
  tryStep t3 .setTitle (set_video_title job.env) fun t4 =>
  tryStep t4 .setDescription
      (set_video_description job.env keywords_path job.fileFirstLine job.video_name)
      fun t5 =>
  tryStep t5 .focusDialog (focus_upload_dialog job.env) fun t6 =>
  tryStep t6 .uploadThumbnail (upload_thumbnail job.env thumbnail_path) fun t7 =>
  tryStep t7 .setTags (set_video_tags job.env tags_path job.fileSecondLine) fun t8 =>
  .ok (t8 ++ [.finalize])

/-- `YouTubeUploader.upload_video`: the try-block with its two
`except` clauses — `TimeoutException` is logged as the per-video
timeout message, every other exception as the per-video error message;
either way the method returns normally.  The result is the recorded
outcome together with the trace of steps that ran. -/
def upload_video (job : VideoJob) : Outcome × List WStep :=
  match upload_video_try job with
  | .ok tr => (.success, tr)
  | .error (e, tr) => (excOutcome e, tr)

/-! ## Batch orchestration (main.py 53-67) -/

/-- The per-session batch of `main`: filter the directory listing to
video files and run `upload_video` once per file, in order, recording
each outcome. -/
def run_batch (jobOf : String → VideoJob) (listing : List String) : List Outcome :=
  (video_files listing).map (fun f => (upload_video (jobOf f)).1)

/-! ## Concrete instances used for witnesses and counterexamples -/

/-- A page on which every element the uploader looks up appears
immediately; the description template contains both placeholders. -/
def envAll : Env :=
  { createClickable := true
    uploadOptionClickable := true
    fileInputPresent := true
    nextButton := some (0, ())
    titleInput := some (0, ())
    descriptionInput := some (0, "KEYWORD TITLE")
    uploadsDialog := some (0, ())
    showMoreButton := some (0, ())
    showMoreTextRaises := false
    thumbnailInput := some (0, ())
    chipText := some (0, "People")
    deleteIcon := some (0, ())
    tagsInput := some (0, ())
    }

/-- A filesystem holding both text and image sidecars for `vids/clip`. -/
def fsClip : String → Bool := fun p => p = "vids/clip.txt" || p = "vids/clip.jpg"

/-- Job for `vids/clip.mp4` with all sidecars and all elements present. -/
def jobAll : VideoJob :=
  { env := envAll
    fs := fsClip
    video_dir := "vids"
    video_name := "clip"
    fileFirstLine := fun _ => "alpha, beta"
    fileSecondLine := fun _ => "tag1,tag2"
    }

/-- Job identical to `jobAll` but with no sidecar files at all. -/
def jobNoSidecars : VideoJob :=
  { jobAll with fs := fun _ => false }

/-- Job with no sidecars on a page whose continue button never appears. -/
def jobNoNext : VideoJob :=
  { jobNoSidecars with env := { envAll with nextButton := none } }

/-- Job on a page whose create button never becomes clickable. -/
def jobNoCreate : VideoJob :=
  { jobNoSidecars with env := { envAll with createClickable := false } }

/-- The full step trace of a successful video. -/
def allSteps : List WStep :=
  [.navigate, .selectFile, .waitFields, .setTitle, .setDescription,
   .focusDialog, .uploadThumbnail, .setTags, .finalize]

/-! ## Helper lemmas -/

/-- The length of a `String` built from a character list is the length
of that list. -/
theorem string_length_mk (l : List Char) : (String.mk l).length = l.length := rfl

/-- `set_video_title` returns normally whether or not the title element
is found. -/
theorem set_video_title_ok (env : Env) : set_video_title env = Except.ok () := by
  cases h : safe_find_element env.titleInput <;> simp [set_video_title, h]

/-- `focus_upload_dialog` returns normally in both branches. -/
theorem focus_upload_dialog_ok (env : Env) : focus_upload_dialog env = Except.ok () := by
  cases h : safe_find_element env.uploadsDialog <;> simp [focus_upload_dialog, h]

/-- `upload_thumbnail` returns normally in all branches. -/
theorem upload_thumbnail_ok (env : Env) (tp : Option String) :
    upload_thumbnail env tp = Except.ok () := by
  cases tp with
  | none => rfl
  | some p => cases h : safe_find_element env.thumbnailInput <;> simp [upload_thumbnail, h]

/-- `set_video_tags` returns normally in all branches (its body has its
own catch-all handler). -/
theorem set_video_tags_ok (env : Env) (tp : Option String) (sl : String → String) :
    ∃ r, set_video_tags env tp sl = Except.ok r := by
  cases hexp : expand_more_options env with
  | error e => exact ⟨none, by simp [set_video_tags, hexp]⟩
  | ok u =>
    cases tp with
    | none => exact ⟨none, by simp [set_video_tags, hexp]⟩
    | some p =>
      cases ht : safe_find_element env.tagsInput with
      | none => exact ⟨none, by simp [set_video_tags, hexp, ht]⟩
      | some x =>
        exact ⟨some (truncate_tags (combined_tags (safe_find_element env.chipText)
            (safe_find_element env.deleteIcon).isSome (sl p))),
          by simp [set_video_tags, hexp, ht]⟩

/-- `set_video_description` returns normally when the keywords sidecar
and the description element are both present. -/
theorem set_video_description_ok (env : Env) (p : String) (fl : String → String)
    (title tmpl : String) (hd : safe_find_element env.descriptionInput = some tmpl) :
    ∃ r, set_video_description env (some p) fl title = Except.ok r := by
  simp only [set_video_description, hd]
  split
  · exact ⟨none, rfl⟩
  · exact ⟨_, rfl⟩

/-- `findSidecar` returns the first existing candidate path, in
extension-list order. -/
theorem findSidecar_eq_find (fs : String → Bool) (dir name : String) (exts : List String) :
    findSidecar fs dir name exts
      = (exts.map (fun e => joinPath dir (name ++ e))).find? fs := by
  induction exts with
  | nil => rfl
  | cons e rest ih =>
    cases h : fs (joinPath dir (name ++ e)) with
    | true => simp [findSidecar, h, List.find?]
    | false => simp [findSidecar, h, List.find?, ih]

/-! ## Claim theorems -/

/-- Claim C1, counterexample: the substitution loop uses Python's
replace-all `str.replace` per keyword, so a template with two `KEYWORD`
tokens and keyword list `["alpha", "beta"]` yields "alpha alpha" — the
second occurrence does not become "beta" as the claim states. -/
theorem substitution_two_keywords_cex :
    substituteDescription (pySplitStrip "alpha,beta") "KEYWORD KEYWORD" "clip" = "alpha alpha"
    ∧ substituteDescription (pySplitStrip "alpha,beta") "KEYWORD KEYWORD" "clip"
        ≠ "alpha beta" := by
  decide

/-- Claim C1, amended: the loop performs, for each keyword in list
order, a replace-all pass of the literal token `KEYWORD` over the whole
current text (later keywords only apply if an earlier substitution
reintroduced the token); in particular two `KEYWORD` tokens with list
`["alpha", "beta"]` both become "alpha", and each `TITLE` placeholder
is replaced by the derived title. -/
theorem substitution_replace_all_per_pass :
    (∀ (k : String) (ks : List String) (template title : String),
        substituteDescription (k :: ks) template title
          = substituteDescription ks (pyReplaceStr template "KEYWORD" k) title)
    ∧ substituteDescription (pySplitStrip "alpha,beta") "KEYWORD KEYWORD" "myvideo"
        = "alpha alpha"
    ∧ substituteDescription (pySplitStrip "kw1,kw2") "one TITLE here" "myvideo"
        = "one myvideo here" :=
  ⟨fun _ _ _ _ => rfl, by decide, by decide⟩

/-- Claim C5: the combined tag string (default chip text prepended when
the chip and its delete icon were found) is truncated to exactly its
first 460 characters when longer than 460, passed through unchanged
otherwise, and this truncated string is what `set_video_tags` writes
into the tag input. -/
theorem tags_truncation (chip : Option String) (icon : Bool) (line : String) :
    ((combined_tags chip icon line).length > 460 →
        truncate_tags (combined_tags chip icon line)
            = String.mk ((combined_tags chip icon line).data.take 460)
          ∧ (truncate_tags (combined_tags chip icon line)).length = 460)
    ∧ ((combined_tags chip icon line).length ≤ 460 →
        truncate_tags (combined_tags chip icon line) = combined_tags chip icon line)
    ∧ (∀ (env : Env) (p : String) (sl : String → String),
        expand_more_options env = Except.ok () →
        safe_find_element env.tagsInput = some () →
        set_video_tags env (some p) sl
          = Except.ok (some (truncate_tags (combined_tags (safe_find_element env.chipText)
              (safe_find_element env.deleteIcon).isSome (sl p))))) := by
  refine ⟨?_, ?_, ?_⟩
  · intro h
    constructor
    · simp [truncate_tags, h]
    · have hlen : 460 ≤ (combined_tags chip icon line).data.length := Nat.le_of_lt h
      simp only [truncate_tags, if_pos h, string_length_mk, List.length_take]
      exact Nat.min_eq_left hlen
  · intro h
    simp [truncate_tags, Nat.not_lt.mpr h]
  · intro env p sl hexp ht
    simp [set_video_tags, hexp, ht]

/-- Claim C6: the queue built by the orchestrator is the directory
listing filtered, in listing order, to names recognized as video files;
membership is exactly listing membership plus recognition. -/
theorem queue_is_ordered_filter (listing : List String) :
    List.Sublist (video_files listing) listing
    ∧ (∀ f, f ∈ video_files listing ↔ f ∈ listing ∧ isVideoFile f = true) := by
  constructor
  · exact List.filter_sublist listing
  · intro f
    simp [video_files, List.mem_filter]

/-- Claim C7: thumbnail resolution probes `.jpg`, `.jpeg`, `.png`,
`.gif` in order against the video's directory and basename and returns
the first existing candidate (none when none exists); in particular a
present `.jpg` always wins. -/
theorem thumbnail_resolution (fs : String → Bool) (dir name : String) :
    find_thumbnail fs dir name
        = (thumbnailExts.map (fun e => joinPath dir (name ++ e))).find? fs
    ∧ (fs (joinPath dir (name ++ ".jpg")) = true →
        find_thumbnail fs dir name = some (joinPath dir (name ++ ".jpg")))
    ∧ ((∀ e ∈ thumbnailExts, fs (joinPath dir (name ++ e)) = false) →
        find_thumbnail fs dir name = none) := by
  refine ⟨findSidecar_eq_find fs dir name thumbnailExts, ?_, ?_⟩
  · intro h
    simp [find_thumbnail, thumbnailExts, findSidecar, h]
  · intro h
    have h1 := h ".jpg" (by decide)
    have h2 := h ".jpeg" (by decide)
    have h3 := h ".png" (by decide)
    have h4 := h ".gif" (by decide)
    simp [find_thumbnail, thumbnailExts, findSidecar, h1, h2, h3, h4]

/-- Claim C9: the keywords resolver and the tags resolver are
extensionally equal — both probe `.txt`, `.md`, `.json` in the same
order over the same directory and basename. -/
theorem keywords_and_tags_resolvers_equal :
    (∀ (fs : String → Bool) (dir name : String),
        find_keywords fs dir name = find_tags fs dir name)
    ∧ textExts = [".txt", ".md", ".json"] :=
  ⟨fun _ _ _ => rfl, rfl⟩

/-- Claim C10: recognition is an exact, case-sensitive suffix test — a
name is enqueued iff it is in the listing and ends with the literal
lowercase `.mp4`, `.avi` or `.mov`; an uppercase variant is never
enqueued. -/
theorem extension_match_case_sensitive :
    (∀ (listing : List String) (f : String),
        f ∈ video_files listing ↔
          f ∈ listing ∧
            (pyEndsWith f ".mp4" = true ∨ pyEndsWith f ".avi" = true
              ∨ pyEndsWith f ".mov" = true))
    ∧ isVideoFile "video.MP4" = false
    ∧ (∀ listing : List String, "video.MP4" ∉ video_files listing) := by
  refine ⟨?_, by decide, ?_⟩
  · intro listing f
    simp [video_files, List.mem_filter, isVideoFile, Bool.or_eq_true, or_assoc]
  · intro listing h
    have h2 : isVideoFile "video.MP4" = true := by
      simpa using (List.mem_filter.mp h).2
    exact absurd h2 (by decide)

/-- Claim C2, counterexample: on a page with every element present but
with no keywords sidecar, the description step raises (the sidecar
path is opened unconditionally), the video is recorded Failed, and the
reveal-options, thumbnail and tags steps never run. -/
theorem enrichment_best_effort_cex :
    upload_video jobNoSidecars
        = (.failedLogged, [.navigate, .selectFile, .waitFields, .setTitle, .setDescription])
    ∧ WStep.uploadThumbnail ∉ (upload_video jobNoSidecars).2
    ∧ WStep.setTags ∉ (upload_video jobNoSidecars).2
    ∧ (upload_video jobNoSidecars).1 ≠ Outcome.success := by
  decide

/-- Claim C2, amended: the title, reveal-options, thumbnail and tags
steps are best-effort (a missing element or absent image/tags sidecar
is logged and the video continues to Success), but the description
step is not: it runs even when the keywords sidecar is absent, the
resulting exception is caught at the workflow boundary, the video is
recorded Failed, and the remaining enrichment steps are skipped. -/
theorem enrichment_description_not_best_effort (job : VideoJob)
    (h1 : job.env.createClickable = true)
    (h2 : job.env.uploadOptionClickable = true)
    (h3 : job.env.fileInputPresent = true)
    (h4 : (safe_find_element job.env.nextButton 300).isSome = true) :
    (find_keywords job.fs job.video_dir job.video_name = none →
        upload_video job
          = (.failedLogged,
              [.navigate, .selectFile, .waitFields, .setTitle, .setDescription]))
    ∧ (∀ p tmpl, find_keywords job.fs job.video_dir job.video_name = some p →
        safe_find_element job.env.descriptionInput = some tmpl →
        upload_video job = (.success, allSteps)) := by
  have e1 : navigate_to_upload_page job.env = .ok () := by
    simp [navigate_to_upload_page, h1, h2]
  have e2 : select_video_file job.env = .ok () := by
    simp [select_video_file, h3]
  have e3 : wait_for_input_fields job.env = .ok () := by
    obtain ⟨u, hu⟩ := Option.isSome_iff_exists.mp h4
    simp [wait_for_input_fields, hu]
  have e4 := set_video_title_ok job.env
  have e6 := focus_upload_dialog_ok job.env
  have e7 := upload_thumbnail_ok job.env (find_thumbnail job.fs job.video_dir job.video_name)
  obtain ⟨r8, e8⟩ :=
    set_video_tags_ok job.env (find_tags job.fs job.video_dir job.video_name) job.fileSecondLine
  constructor
  · intro hk
    simp [upload_video, upload_video_try, tryStep, e1, e2, e3, e4, hk,
      set_video_description, excOutcome]
  · intro p tmpl hk hd
    obtain ⟨r5, e5⟩ :=
      set_video_description_ok job.env p job.fileFirstLine job.video_name tmpl hd
    simp [upload_video, upload_video_try, tryStep, e1, e2, e3, e4, hk, e5, e6, e7, e8,
      allSteps]

/-- Claim C3, counterexample: when the continue affordance never
appears within the 300-second wait, `wait_for_input_fields` raises a
plain `Exception` (the internal `TimeoutException` was already caught
and converted to `None`), so the video is recorded through the generic
Failed path, not the distinct Timeout outcome. -/
theorem readiness_timeout_cex :
    upload_video jobNoNext = (.failedLogged, [.navigate, .selectFile, .waitFields])
    ∧ (upload_video jobNoNext).1 ≠ Outcome.timeoutLogged := by
  decide

/-- Claim C3, amended: exhausting the 300-second readiness wait is
recorded as the generic Failed outcome for that video (the batch still
continues); the distinct Timeout outcome is produced instead by
`TimeoutException` from the required navigation waits. -/
theorem readiness_timeout_recorded_failed (job : VideoJob)
    (h1 : job.env.createClickable = true)
    (h2 : job.env.uploadOptionClickable = true)
    (h3 : job.env.fileInputPresent = true)
    (h4 : safe_find_element job.env.nextButton 300 = none) :
    upload_video job = (.failedLogged, [.navigate, .selectFile, .waitFields])
    ∧ (∀ job2 : VideoJob, job2.env.createClickable = false →
        upload_video job2 = (.timeoutLogged, [.navigate])) := by
  have e1 : navigate_to_upload_page job.env = .ok () := by
    simp [navigate_to_upload_page, h1, h2]
  have e2 : select_video_file job.env = .ok () := by
    simp [select_video_file, h3]
  have e3 : wait_for_input_fields job.env
      = .error (.genericExc "Input fields not found") := by
    simp [wait_for_input_fields, h4]
  constructor
  · simp [upload_video, upload_video_try, tryStep, e1, e2, e3, excOutcome]
  · intro job2 hc
    simp [upload_video, upload_video_try, tryStep, navigate_to_upload_page, hc, excOutcome]

/-- Claim C4: the batch produces exactly one recorded outcome per
enqueued video, in queue order; each entry is that video's own
workflow result; and every exception of the try-block is converted at
the workflow boundary into a recorded outcome instead of propagating. -/
theorem batch_one_outcome_per_video (jobOf : String → VideoJob) (listing : List String) :
    (run_batch jobOf listing).length = (video_files listing).length
    ∧ (∀ (i : Nat) (h : i < (video_files listing).length)
          (h2 : i < (run_batch jobOf listing).length),
        (run_batch jobOf listing)[i] = (upload_video (jobOf ((video_files listing)[i]))).1)
    ∧ (∀ (job : VideoJob) (e : PyExc) (tr : List WStep),
        upload_video_try job = Except.error (e, tr) →
        upload_video job = (excOutcome e, tr)) := by
  refine ⟨by simp [run_batch], ?_, ?_⟩
  · intro i h h2
    simp [run_batch, List.getElem_map]
  · intro job e tr he
    simp [upload_video, he]

/-- Claim C8: the bounded lookup returns the found element or an
explicit `none` (the `TimeoutException` of the wait is caught), its
default timeout is 10, and the readiness wait calls it with 300,
leaving the caller of `wait_for_input_fields` to treat absence as
fatal. -/
theorem safe_element_lookup :
    (∀ (α : Type) (appearsAt : Option (Nat × α)) (timeout : Nat),
        safe_find_element appearsAt timeout = none
        ∨ ∃ t e, appearsAt = some (t, e) ∧ t ≤ timeout
            ∧ safe_find_element appearsAt timeout = some e)
    ∧ (∀ (α : Type) (appearsAt : Option (Nat × α)) (timeout : Nat),
        webDriverWaitUntil appearsAt timeout = Except.error PyExc.timeoutException →
        safe_find_element appearsAt timeout = none)
    ∧ (∀ (α : Type) (appearsAt : Option (Nat × α)),
        safe_find_element appearsAt = safe_find_element appearsAt 10)
    ∧ (∀ env : Env,
        (∀ u, safe_find_element env.nextButton 300 = some u →
            wait_for_input_fields env = Except.ok ())
        ∧ (safe_find_element env.nextButton 300 = none →
            wait_for_input_fields env
              = Except.error (PyExc.genericExc "Input fields not found"))) := by
  refine ⟨?_, ?_, fun α a => rfl, fun env => ⟨?_, ?_⟩⟩
  · intro α a timeout
    match a with
    | none => exact Or.inl rfl
    | some (t, e) =>
      by_cases h : t ≤ timeout
      · exact Or.inr ⟨t, e, rfl, h, by simp [safe_find_element, webDriverWaitUntil, h]⟩
      · exact Or.inl (by simp [safe_find_element, webDriverWaitUntil, h])
  · intro α a timeout hw
    simp [safe_find_element, hw]
  · intro u hu
    simp [wait_for_input_fields, hu]
  · intro h
    simp [wait_for_input_fields, h]

/-! ## Witnesses -/

/-- Witness for claim C2's amended theorem, at a job with no sidecars
(Failed, enrichment cut short) and at a job with all sidecars and
elements (Success, all steps). -/
theorem enrichment_description_not_best_effort_witness :
    upload_video jobNoSidecars
        = (.failedLogged, [.navigate, .selectFile, .waitFields, .setTitle, .setDescription])
    ∧ upload_video jobAll = (.success, allSteps) := by
  have hA := enrichment_description_not_best_effort jobNoSidecars
    (by decide) (by decide) (by decide) (by decide)
  have hB := enrichment_description_not_best_effort jobAll
    (by decide) (by decide) (by decide) (by decide)
  exact ⟨hA.1 (by decide), hB.2 "vids/clip.txt" "KEYWORD TITLE" (by decide) (by decide)⟩

/-- Witness for claim C3's amended theorem, at a job whose continue
button never appears and at a job whose create button never becomes
clickable. -/
theorem readiness_timeout_recorded_failed_witness :
    upload_video jobNoNext = (.failedLogged, [.navigate, .selectFile, .waitFields])
    ∧ upload_video jobNoCreate = (.timeoutLogged, [.navigate]) := by
  have h := readiness_timeout_recorded_failed jobNoNext
    (by decide) (by decide) (by decide) (by decide)
  exact ⟨h.1, h.2 jobNoCreate (by decide)⟩

/-- Witness for claim C4's theorem, on a three-name listing of which
two are videos: two outcomes, the second being the second video's own
result even though the first video failed. -/
theorem batch_one_outcome_per_video_witness :
    (run_batch (fun _ => jobNoSidecars) ["a.mp4", "b.mp4", "c.txt"]).length = 2
    ∧ (run_batch (fun _ => jobNoSidecars) ["a.mp4", "b.mp4", "c.txt"]).get ⟨1, by decide⟩
        = (upload_video jobNoSidecars).1 := by
  have h := batch_one_outcome_per_video (fun _ => jobNoSidecars) ["a.mp4", "b.mp4", "c.txt"]
  refine ⟨by rw [h.1]; decide, ?_⟩
  have h2 := h.2.1 1 (by decide) (by decide)
  simpa using h2

/-- Witness for claim C5's theorem: a 600-character line is cut to
exactly 460 characters, a 100-character line passes unchanged. -/
theorem tags_truncation_witness :
    (truncate_tags (combined_tags none false (String.mk (List.replicate 600 'a')))).length
        = 460
    ∧ truncate_tags (combined_tags none false (String.mk (List.replicate 100 'b')))
        = combined_tags none false (String.mk (List.replicate 100 'b')) := by
  have h6 := tags_truncation none false (String.mk (List.replicate 600 'a'))
  have h1 := tags_truncation none false (String.mk (List.replicate 100 'b'))
  refine ⟨(h6.1 ?_).2, h1.2.1 ?_⟩
  · show 460 < (String.mk (List.replicate 600 'a')).length
    rw [string_length_mk, List.length_replicate]
    decide
  · show (String.mk (List.replicate 100 'b')).length ≤ 460
    rw [string_length_mk, List.length_replicate]
    decide

/-- Witness for claim C6's theorem on a mixed listing. -/
theorem queue_is_ordered_filter_witness :
    List.Sublist (video_files ["a.mp4", "b.txt", "c.mov"]) ["a.mp4", "b.txt", "c.mov"]
    ∧ "a.mp4" ∈ video_files ["a.mp4", "b.txt", "c.mov"] := by
  have h := queue_is_ordered_filter ["a.mp4", "b.txt", "c.mov"]
  exact ⟨h.1, (h.2 "a.mp4").mpr ⟨by decide, by decide⟩⟩

/-- Witness for claim C7's theorem: with both `v.jpg` and `v.png`
present, the resolver returns the `.jpg` path. -/
theorem thumbnail_resolution_witness :
    find_thumbnail (fun p => p = "d/v.jpg" || p = "d/v.png") "d" "v" = some "d/v.jpg" :=
  (thumbnail_resolution (fun p => p = "d/v.jpg" || p = "d/v.png") "d" "v").2.1 (by decide)

/-- Witness for claim C8's theorem, on the concrete page environments. -/
theorem safe_element_lookup_witness :
    wait_for_input_fields envAll = Except.ok ()
    ∧ wait_for_input_fields { envAll with nextButton := none }
        = Except.error (PyExc.genericExc "Input fields not found")
    ∧ safe_find_element (none : Option (Nat × String)) 10 = none := by
  exact ⟨(safe_element_lookup.2.2.2 envAll).1 () (by decide),
    (safe_element_lookup.2.2.2 { envAll with nextButton := none }).2 (by decide),
    safe_element_lookup.2.1 String none 10 (by rfl)⟩

/-- Witness for claim C10's theorem on a listing holding an uppercase
variant and a lowercase video name. -/
theorem extension_match_case_sensitive_witness :
    "video.MP4" ∉ video_files ["video.MP4", "a.mp4"]
    ∧ "a.mp4" ∈ video_files ["video.MP4", "a.mp4"] := by
  have h := extension_match_case_sensitive
  exact ⟨h.2.2 ["video.MP4", "a.mp4"],
    (h.1 ["video.MP4", "a.mp4"] "a.mp4").mpr ⟨by decide, Or.inl (by decide)⟩⟩

end YTU
